import Mathlib

/-!
Verification development for the retry-loop parser-generation agent
(`agent.py`, `prompts.py`).

The embedding models:
- pandas `DataFrame`s as a list of column names plus a list of rows of
  optional cells (`none` is the NaN/null marker; cell values are modelled
  by their string representation);
- `compare_and_summarize` as a function into `Except String String`:
  `Except.error` models a raised pandas exception.  The element-wise
  comparison `expected_filled == actual_filled` used for the row-match
  count raises `ValueError` in pandas when the two frames are not
  identically labeled, which the embedding reproduces;
- the LangGraph workflow (`build_graph`) as a small-step transition
  function on configurations holding the current node, the `AgentState`
  and counters for external calls (pytest runs, LLM calls, Fixer runs);
- external effects (the OpenAI client, the filesystem cache, pytest,
  the dynamically loaded parser, `pd.read_csv`) as an oracle `Env`
  record supplying the results of each invocation.
-/

namespace Agent

/-- A pandas DataFrame: ordered column labels and rows of cells.
A cell is `none` for NaN/null, `some v` for a value (modelled by its
string representation). -/
structure DataFrame where
  cols : List String
  rows : List (List (Option String))
deriving DecidableEq

/-- Translation of
`actual[~actual.apply(lambda row: list(row) == header_row, axis=1)].reset_index(drop=True)`:
drop the rows of `actual` that exactly repeat the header label sequence.
A `none` (NaN) cell never equals a header label, matching pandas. -/
def stripHeaders (df : DataFrame) : DataFrame :=
  { cols := df.cols
    rows := df.rows.filter (fun r => decide (r ≠ df.cols.map Option.some)) }

/-- Translation of `fillna("")` applied to one row: null cells become the empty string. -/
def fillRow (r : List (Option String)) : List String :=
  r.map (fun c => c.getD "")

/-- Translation of `df.iloc[:m].fillna("")`: truncate to the first `m` rows and fill nulls. -/
def filledTrunc (rows : List (List (Option String))) (m : Nat) : List (List String) :=
  (rows.take m).map fillRow

/-- Translation of `(expected_filled == actual_filled).all(axis=1).sum()`: the number of
row positions at which every cell agrees (for a zero-column frame every
row counts, as pandas `all(axis=1)` is vacuously true). -/
def rowMatchCount (expF actF : List (List String)) : Nat :=
  (expF.zip actF).countP (fun p => decide (p.1 = p.2))

/-- The row-match count computed by `compare_and_summarize`:
`rowMatchCount` applied to the null-filled frames truncated to
`min(len(expected), len(actual))`, `actual` taken after header stripping. -/
def rowMatchesOf (expected actual0 : DataFrame) : Nat :=
  rowMatchCount
    (filledTrunc expected.rows
      (min expected.rows.length (stripHeaders actual0).rows.length))
    (filledTrunc (stripHeaders actual0).rows
      (min expected.rows.length (stripHeaders actual0).rows.length))

/-- Translation of the report part `f"{row_matches}/{len(expected)} rows match exactly!"`. -/
def row_match_part (expected actual0 : DataFrame) : String :=
  toString (rowMatchesOf expected actual0) ++ "/" ++
    toString expected.rows.length ++ " rows match exactly!"

/-- The value stored for one column in `mismatch_summary`: either the
count of differing cells or the `"MISSING"` marker. -/
inductive MismatchVal
  | count : Nat → MismatchVal
  | missing : MismatchVal
deriving DecidableEq

/-- Translation of `expected_filled[col]` / `actual_filled[col]`: the cells of the column
labelled `c`, looked up by label position (pandas column selection). -/
def colVals (cols : List String) (rowsF : List (List String)) (c : String) : List String :=
  rowsF.map (fun r => r.getD (cols.indexOf c) "")

/-- Translation of `int((expected_filled[col] != actual_filled[col]).sum())`. -/
def colMismatchCount (ecols acols : List String) (expF actF : List (List String))
    (c : String) : Nat :=
  ((colVals ecols expF c).zip (colVals acols actF c)).countP (fun p => decide (p.1 ≠ p.2))

/-- The `mismatch_summary` dict: for each column of `expected`, its
differing-cell count if present in `actual`, else the `MISSING` marker. -/
def mismatchSummaryOf (expected : DataFrame) (acols : List String)
    (expF actF : List (List String)) : List (String × MismatchVal) :=
  expected.cols.map (fun c =>
    if acols.contains c then
      (c, MismatchVal.count (colMismatchCount expected.cols acols expF actF c))
    else
      (c, MismatchVal.missing))

/-- Python `str` of one dict value. -/
def mismatchValStr : MismatchVal → String
  | MismatchVal.count n => toString n
  | MismatchVal.missing => "\x27MISSING\x27"

/-- Python `str` of one dict entry, e.g. `'Date': 0`. -/
def dictEntryStr (p : String × MismatchVal) : String :=
  "\x27" ++ p.1 ++ "\x27: " ++ mismatchValStr p.2

/-- Python `str(mismatch_summary)` for a dict with string keys. -/
def dictStr (l : List (String × MismatchVal)) : String :=
  "\x7b" ++ String.intercalate ", " (l.map dictEntryStr) ++ "\x7d"

/-- The message of the `ValueError` pandas raises when `==` is applied to
DataFrames whose axes differ. -/
def pandasLabelError : String :=
  "Can only compare identically-labeled (both index and columns) DataFrame objects"

/-- Translation of `compare_and_summarize(expected, actual)` from `agent.py`.

`Except.error` models a raised exception: the element-wise comparison
`(expected_filled == actual_filled)` on the row-match line raises
pandas' identically-labeled `ValueError` whenever the column label
sequences differ (the shape-mismatch part already appended to
`msg_parts` is discarded by the exception, so the embedding checks the
labels before building the message). -/
def compare_and_summarize (expected0 actual0 : DataFrame) : Except String String :=
  let actual := stripHeaders actual0
  let expected := expected0
  let m := min expected.rows.length actual.rows.length
  let expF := filledTrunc expected.rows m
  let actF := filledTrunc actual.rows m
  -- `expected_filled.equals(actual_filled)`: same labels, same cells.
  if expected.cols = actual.cols ∧ expF = actF then
    Except.ok "All rows and columns match exactly."
  else
    let er := expected.rows.length
    let ec := expected.cols.length
    let ar := actual.rows.length
    let ac := actual.cols.length
    let shapeParts : List String :=
      if (er, ec) ≠ (ar, ac) then
        [s!"Shape mismatch: expected ({er}, {ec}), got ({ar}, {ac})"]
      else []
    if expected.cols = actual.cols then
      let parts := shapeParts ++ [row_match_part expected0 actual0] ++
        ["Mismatches by column: " ++ dictStr (mismatchSummaryOf expected actual.cols expF actF)]
      Except.ok (String.intercalate "; " parts)
    else
      Except.error pandasLabelError

/-! ## Agent state and workflow graph -/

/-- The `AgentState` dataclass threaded through the graph nodes. -/
structure AgentState where
  code : String := ""
  logs : String := ""
  success : Bool := false
  attempts : Nat := 0
  bank : String := ""
  pdf_path : String := ""
  csv_path : String := ""
  csv_schema : String := ""
  parser_file : String := ""
deriving DecidableEq

/-- Oracle for the external world: the cache file, the OpenAI client
(`call_llm`, indexed by global call number and given the fields the
prompt templates of `prompts.py` interpolate), `run_pytest` (indexed by
invocation number), and the Tester diagnostic sub-pass inputs — the
result of dynamically loading the written parser and calling
`mod.parse(pdf_path)` and the result of `pd.read_csv(csv_path)`
(`Except.error` models a raised exception). -/
structure Env where
  cacheExists : Bool
  cacheContent : String
  llmGen : Nat → String → String → String → String → String
  llmFix : Nat → String → String → String → String → String → String
  pytest : Nat → Bool × String
  parse : Nat → Except String DataFrame
  csv : Nat → Except String DataFrame

/-- Translation of `codegen(state)`: on a cache hit load the cached parser and set
`success = True` without calling the LLM; otherwise obtain the code
from `call_llm` on the formatted `codegen_template`.  The second
component counts the `call_llm` invocations the node performed. -/
def codegen (env : Env) (lc : Nat) (s : AgentState) : AgentState × Nat :=
  if env.cacheExists then
    ({ s with code := env.cacheContent, success := true }, 0)
  else
    ({ s with code := env.llmGen lc s.bank s.pdf_path s.csv_path s.csv_schema }, 1)

/-- Translation of `executor(state)`: writes `state.code` to `state.parser_file`
(a pure side effect on the filesystem) and returns the state unchanged. -/
def executor (s : AgentState) : AgentState :=
  s

/-- The Tester's secondary diagnostic pass (the body of the `try` block):
load and run the parser, read the reference CSV, then
`compare_and_summarize(expected, actual)`; any raised exception
(including the comparator's own `ValueError`) surfaces as `Except.error`. -/
def diagPass (parseR csvR : Except String DataFrame) : Except String String := do
  let actual ← parseR
  let expected ← csvR
  compare_and_summarize expected actual

/-- Translation of `tester(state)`: run pytest; on failure attempt the diagnostic pass,
appending its summary, or — if it raised — the distinct diagnostics-error
note; finally store the pytest success flag and the logs. -/
def tester (pytestR : Bool × String) (parseR csvR : Except String DataFrame)
    (s : AgentState) : AgentState :=
  let success := pytestR.1
  let logs0 := pytestR.2
  let logs :=
    if success then logs0
    else
      match diagPass parseR csvR with
      | Except.ok summary =>
          logs0 ++ "\n [Agent Diagnostics]" ++ summary
      | Except.error e =>
          logs0 ++ "\n[Agent Diagnostics Error] Could not run manual comparison: " ++ e
  { s with success := success, logs := logs }

/-- Translation of `fixer(state)`: ask `call_llm` for repaired code on the formatted
`fixer_template` (which interpolates the bank, old code, logs, CSV path
and schema) and increment `attempts`. -/
def fixer (env : Env) (lc : Nat) (s : AgentState) : AgentState :=
  { s with
      code := env.llmFix lc s.bank s.code s.logs s.csv_path s.csv_schema
      attempts := s.attempts + 1 }

/-- The routing outcomes of `route_from_tester`. -/
inductive Route
  | pass
  | fail
  | max_retries
deriving DecidableEq

/-- Translation of `route_from_tester` from `build_graph`. -/
def route_from_tester (maxAttempts : Nat) (s : AgentState) : Route :=
  if s.success then Route.pass
  else if maxAttempts ≤ s.attempts then Route.max_retries
  else Route.fail

/-- The nodes of the compiled LangGraph; `terminal` is `END`. -/
inductive GNode
  | codeGen
  | executor
  | tester
  | fixer
  | terminal
deriving DecidableEq

/-- A configuration of a graph run: the node about to execute, the
current state, and counters of external pytest/LLM invocations and of
Fixer executions. -/
structure Config where
  node : GNode
  state : AgentState
  pytestCalls : Nat
  llmCalls : Nat
  fixerRuns : Nat
deriving DecidableEq

/-- One transition of the compiled graph
(`CodeGen → Executor → Tester →(route) END/Fixer`, `Fixer → Executor`). -/
def step (env : Env) (maxAttempts : Nat) (c : Config) : Config :=
  match c.node with
  | GNode.codeGen =>
      let r := codegen env c.llmCalls c.state
      { c with node := GNode.executor, state := r.1, llmCalls := c.llmCalls + r.2 }
  | GNode.executor =>
      { c with node := GNode.tester, state := executor c.state }
  | GNode.tester =>
      let s := tester (env.pytest c.pytestCalls) (env.parse c.pytestCalls)
        (env.csv c.pytestCalls) c.state
      let c2 := { c with state := s, pytestCalls := c.pytestCalls + 1 }
      match route_from_tester maxAttempts s with
      | Route.pass => { c2 with node := GNode.terminal }
      | Route.max_retries => { c2 with node := GNode.terminal }
      | Route.fail => { c2 with node := GNode.fixer }
  | GNode.fixer =>
      { c with
          node := GNode.executor
          state := fixer env c.llmCalls c.state
          llmCalls := c.llmCalls + 1
          fixerRuns := c.fixerRuns + 1 }
  | GNode.terminal => c

/-- Iterate `step` a given number of times. -/
def runSteps (env : Env) (maxAttempts : Nat) : Nat → Config → Config
  | 0, c => c
  | n + 1, c => runSteps env maxAttempts n (step env maxAttempts c)

/-- The entry configuration of a `graph.invoke(state)` call:
the graph starts at `CodeGen` with no Fixer runs yet; the pytest/LLM
invocation counters carry over from earlier external activity. -/
def initConfig (s : AgentState) (pc lc : Nat) : Config :=
  { node := GNode.codeGen, state := s, pytestCalls := pc, llmCalls := lc, fixerRuns := 0 }

/-- LangGraph's default recursion limit bounds the steps of one invoke. -/
def recursionLimit : Nat := 25

/-- Run the graph until `END` (bounded by the recursion limit). -/
def runToEnd (env : Env) (maxAttempts : Nat) : Nat → Config → Config
  | 0, c => c
  | n + 1, c =>
      if c.node = GNode.terminal then c
      else runToEnd env maxAttempts n (step env maxAttempts c)

/-- The configurations visited while running the graph until `END`. -/
def traceRun (env : Env) (maxAttempts : Nat) : Nat → Config → List Config
  | 0, c => [c]
  | n + 1, c =>
      if c.node = GNode.terminal then [c]
      else c :: traceRun env maxAttempts n (step env maxAttempts c)

/-- Translation of `graph.invoke(state)` as called by the driver. -/
def graph_invoke (env : Env) (maxAttempts : Nat) (s : AgentState) (pc lc : Nat) : Config :=
  runToEnd env maxAttempts recursionLimit (initConfig s pc lc)

/-! ## Driver loop (`invoke_with_timing`) -/

/-- The body of `invoke_with_timing`'s `for attempt in range(1, max_attempts+1)`
loop: break on a successful state, otherwise set `state.attempts = attempt`,
invoke the graph, rebuild the state from the result and break on success.
(Timing, console printing and the final cache write are I/O only and do
not touch the state.) -/
def invoke_go (env : Env) (maxAttempts : Nat) :
    List Nat → AgentState → Nat → Nat → AgentState
  | [], s, _, _ => s
  | attempt :: rest, s, pc, lc =>
      if s.success then s
      else
        let c := graph_invoke env maxAttempts { s with attempts := attempt } pc lc
        if c.state.success then c.state
        else invoke_go env maxAttempts rest c.state c.pytestCalls c.llmCalls

/-- Translation of `invoke_with_timing(graph, state, max_attempts)`: the final state. -/
def invoke_with_timing (env : Env) (maxAttempts : Nat) (s : AgentState) : AgentState :=
  invoke_go env maxAttempts (List.range' 1 maxAttempts) s 0 0

/-- Like `invoke_go` but recording every configuration visited
(the per-iteration assignment `state.attempts = attempt` is visible as
the first configuration of each iteration's graph trace). -/
def driverTraceGo (env : Env) (maxAttempts : Nat) :
    List Nat → AgentState → Nat → Nat → List Config
  | [], _, _, _ => []
  | attempt :: rest, s, pc, lc =>
      if s.success then []
      else
        let c0 := initConfig { s with attempts := attempt } pc lc
        let tr := traceRun env maxAttempts recursionLimit c0
        let cEnd := runToEnd env maxAttempts recursionLimit c0
        tr ++ (if cEnd.state.success then []
               else driverTraceGo env maxAttempts rest cEnd.state cEnd.pytestCalls cEnd.llmCalls)

/-- The full configuration trace of a whole task run
(`invoke_with_timing` with its driver-loop iterations). -/
def invoke_with_timing_trace (env : Env) (maxAttempts : Nat) (s : AgentState) : List Config :=
  driverTraceGo env maxAttempts (List.range' 1 maxAttempts) s 0 0

/-! ## Concrete oracles and datasets used by witnesses and counterexamples -/

/-- An environment with no cached parser in which every pytest run fails
and the diagnostic sub-pass raises. -/
def ceFail : Env :=
  { cacheExists := false
    cacheContent := ""
    llmGen := fun _ _ _ _ _ => "gen-code"
    llmFix := fun _ _ _ _ _ _ => "fixed-code"
    pytest := fun _ => (false, "FAILED")
    parse := fun _ => Except.error "boom"
    csv := fun _ => Except.error "boom" }

/-- Variant of `ceFail` with a pre-existing cached successful parser. -/
def ceHit : Env :=
  { ceFail with cacheExists := true, cacheContent := "cached" }

/-- Expected dataset: one column, two rows. -/
def dfE1 : DataFrame := ⟨["a"], [[some "1"], [some "2"]]⟩

/-- Actual dataset: a repeated header row followed by one data row. -/
def dfA1 : DataFrame := ⟨["a"], [[some "a"], [some "1"]]⟩

/-- Expected dataset whose column label is absent from `dfA3`. -/
def dfE3 : DataFrame := ⟨["a"], [[some "1"]]⟩

/-- Actual dataset with a disjoint column set from `dfE3`. -/
def dfA3 : DataFrame := ⟨["b"], [[some "1"]]⟩

/-- Expected dataset whose column label is absent from `dfA9`. -/
def dfE9 : DataFrame := ⟨["x"], [[some "7"]]⟩

/-- Actual dataset with a disjoint column set from `dfE9`. -/
def dfA9 : DataFrame := ⟨["y"], [[some "7"]]⟩

/-! ## Helper lemmas -/

theorem stripHeaders_cols (df : DataFrame) : (stripHeaders df).cols = df.cols := rfl

theorem codegen_attempts (env : Env) (lc : Nat) (s : AgentState) :
    ((codegen env lc s).1).attempts = s.attempts := by
  unfold codegen
  split <;> rfl

theorem tester_attempts (p : Bool × String) (pr cr : Except String DataFrame)
    (s : AgentState) : (tester p pr cr s).attempts = s.attempts := rfl

theorem tester_success (p : Bool × String) (pr cr : Except String DataFrame)
    (s : AgentState) : (tester p pr cr s).success = p.1 := rfl

/-- Case analysis of `route_from_tester`. -/
theorem route_cases (maxAttempts : Nat) (s : AgentState) :
    (s.success = true ∧ route_from_tester maxAttempts s = Route.pass)
    ∨ (s.success = false ∧ maxAttempts ≤ s.attempts
        ∧ route_from_tester maxAttempts s = Route.max_retries)
    ∨ (s.success = false ∧ s.attempts < maxAttempts
        ∧ route_from_tester maxAttempts s = Route.fail) := by
  unfold route_from_tester
  cases hs : s.success
  · by_cases ha : maxAttempts ≤ s.attempts
    · exact Or.inr (Or.inl ⟨rfl, ha, by simp [ha]⟩)
    · exact Or.inr (Or.inr ⟨rfl, by omega, by simp [ha]⟩)
  · exact Or.inl ⟨rfl, by simp⟩

/-! ## Claims C4–C7: node behaviors -/

/-- C4 (counterexample): the claim "`success` is set only by the Test
step; the Generate node never sets it to `true`" is false: on a cache
hit `codegen` sets `success = True` (line 138 of `agent.py`) on a state
whose `success` was `false`. -/
theorem c4_codegen_sets_success_cex :
    (({} : AgentState)).success = false
    ∧ ((codegen ceHit 0 ({} : AgentState)).1).success = true := by
  constructor
  · rfl
  · rfl

/-- C4 (amended): `success` is assigned from the test command's exit
status by the Tester node, and is otherwise modified only by the
Generate node's cache-hit branch, which sets it to `true`; the Executor
and Fixer nodes never change it, and the Generate node leaves it
unchanged when no cached artifact exists. -/
theorem c4_success_writers (env : Env) (p : Bool × String)
    (pr cr : Except String DataFrame) (s : AgentState) (lc : Nat) :
    (executor s).success = s.success
    ∧ (fixer env lc s).success = s.success
    ∧ (tester p pr cr s).success = p.1
    ∧ (env.cacheExists = false → ((codegen env lc s).1).success = s.success) := by
  refine ⟨rfl, rfl, rfl, ?_⟩
  intro h
  unfold codegen
  rw [h]
  simp

/-- C4 (witness for the amended claim at concrete inputs). -/
theorem c4_success_writers_witness :
    ((codegen ceFail 0 ({} : AgentState)).1).success = ({} : AgentState).success
    ∧ (executor ({} : AgentState)).success = ({} : AgentState).success :=
  ⟨(c4_success_writers ceFail (false, "") (Except.error "") (Except.error "")
      ({} : AgentState) 0).2.2.2 rfl,
   (c4_success_writers ceFail (false, "") (Except.error "") (Except.error "")
      ({} : AgentState) 0).1⟩

/-- C5 (counterexample): the claim "across every step of a whole task
run — graph nodes and driver-loop iterations alike — `attempts` never
decreases" is false.  With no cache and an always-failing test command,
the first graph invocation of `invoke_with_timing` (with
`maxAttempts = 3`) ends with `attempts = 3`, and the driver loop's
second iteration then executes `state.attempts = attempt` with
`attempt = 2` (line 246 of `agent.py`): in the full configuration trace
the state at position 9 has `attempts = 3` and its successor at
position 10 has `attempts = 2`. -/
theorem c5_attempts_decrease_cex :
    (((invoke_with_timing_trace ceFail 3 ({} : AgentState)).map
        (fun c => c.state.attempts))[9]? = some 3)
    ∧ (((invoke_with_timing_trace ceFail 3 ({} : AgentState)).map
        (fun c => c.state.attempts))[10]? = some 2) := by
  constructor
  · rfl
  · rfl

/-- C5 (amended): within a single workflow-graph run `attempts` never
decreases — every graph transition, and hence any number of graph
transitions, maps a configuration to one with an `attempts` value at
least as large; the decrease exhibited by the counterexample comes only
from the driver loop's `state.attempts = attempt` assignment between
graph invocations. -/
theorem c5_graph_attempts_monotone (env : Env) (maxAttempts : Nat) (c : Config) :
    c.state.attempts ≤ (step env maxAttempts c).state.attempts
    ∧ ∀ n, c.state.attempts ≤ (runSteps env maxAttempts n c).state.attempts := by
  have hstep : ∀ c1 : Config,
      c1.state.attempts ≤ (step env maxAttempts c1).state.attempts := by
    intro c1
    obtain ⟨node, s, pc, lc, fr⟩ := c1
    cases node
    case codeGen => simp [step, codegen_attempts]
    case executor => exact Nat.le_refl _
    case tester =>
      simp only [step]
      rcases route_cases maxAttempts
        (tester (env.pytest pc) (env.parse pc) (env.csv pc) s) with
        ⟨_, hr⟩ | ⟨_, _, hr⟩ | ⟨_, _, hr⟩ <;>
        rw [hr] <;> simp [tester_attempts]
    case fixer => simp [step, fixer]
    case terminal => exact Nat.le_refl _
  refine ⟨hstep c, ?_⟩
  intro n
  induction n generalizing c with
  | zero => exact Nat.le_refl _
  | succ m ih =>
      exact Nat.le_trans (hstep c) (ih (step env maxAttempts c))

/-- C6: if a cached successful artifact exists, the Generate node loads
it into `code`, sets `success = true` and performs zero `call_llm`
invocations; otherwise it stores the generation service's response in
`code`, leaves `success` (and every other field) unchanged, and performs
exactly one `call_llm` invocation. -/
theorem c6_codegen_cache_behavior (env : Env) (lc : Nat) (s : AgentState) :
    (env.cacheExists = true →
      codegen env lc s = ({ s with code := env.cacheContent, success := true }, 0))
    ∧ (env.cacheExists = false →
      codegen env lc s =
        ({ s with code := env.llmGen lc s.bank s.pdf_path s.csv_path s.csv_schema }, 1)) := by
  constructor <;> intro h <;> simp [codegen, h]

/-- C6 (witness at concrete environments). -/
theorem c6_codegen_cache_behavior_witness :
    codegen ceHit 0 ({} : AgentState)
      = ({ ({} : AgentState) with code := "cached", success := true }, 0)
    ∧ codegen ceFail 0 ({} : AgentState)
      = ({ ({} : AgentState) with code := "gen-code" }, 1) :=
  ⟨(c6_codegen_cache_behavior ceHit 0 ({} : AgentState)).1 rfl,
   (c6_codegen_cache_behavior ceFail 0 ({} : AgentState)).2 rfl⟩

/-- C7: when the test run fails and the diagnostic sub-pass raises, the
Tester still returns normally, `success` equals the primary (failing)
test result, and the logs end with the distinct diagnostics-error note;
the diagnostic failure never propagates and never changes `success`. -/
theorem c7_diag_error_contained (p : Bool × String)
    (pr cr : Except String DataFrame) (s : AgentState) (e : String)
    (hfail : p.1 = false) (hdiag : diagPass pr cr = Except.error e) :
    tester p pr cr s =
      { s with
          success := false
          logs := p.2 ++ "\n[Agent Diagnostics Error] Could not run manual comparison: " ++ e } := by
  unfold tester
  rw [hfail, hdiag]
  simp

/-- C7 (witness at concrete inputs). -/
theorem c7_diag_error_contained_witness :
    tester (false, "LOG") (Except.error "boom") (Except.ok dfE1) ({} : AgentState) =
      { ({} : AgentState) with
          success := false
          logs := "LOG" ++ "\n[Agent Diagnostics Error] Could not run manual comparison: " ++ "boom" } :=
  c7_diag_error_contained (false, "LOG") (Except.error "boom") (Except.ok dfE1)
    ({} : AgentState) "boom" rfl rfl

/-! ## Claim C2: temporal bounds of the workflow graph -/

/-- Run invariant of the compiled graph: `attempts` counts the initial
value plus the Fixer runs; once Fixer has run, `attempts` stays at most
`maxAttempts`; the Fixer node is only ever entered after a failing test
with attempts still below the bound; and the terminal node is only
entered on success or with the bound reached. -/
def GraphInv (maxAttempts a0 : Nat) (c : Config) : Prop :=
  c.state.attempts = a0 + c.fixerRuns
  ∧ (c.fixerRuns = 0 ∨ c.state.attempts ≤ maxAttempts)
  ∧ (c.node = GNode.fixer → c.state.success = false ∧ c.state.attempts < maxAttempts)
  ∧ (c.node = GNode.terminal → c.state.success = true ∨ maxAttempts ≤ c.state.attempts)

theorem graphInv_init (maxAttempts : Nat) (s : AgentState) (pc lc : Nat) :
    GraphInv maxAttempts s.attempts (initConfig s pc lc) := by
  refine ⟨rfl, Or.inl rfl, ?_, ?_⟩ <;> intro h <;> simp [initConfig] at h

theorem graphInv_step (env : Env) (maxAttempts a0 : Nat) (c : Config)
    (h : GraphInv maxAttempts a0 c) : GraphInv maxAttempts a0 (step env maxAttempts c) := by
  obtain ⟨node, s, pc, lc, fr⟩ := c
  obtain ⟨h1, h2, h3, h4⟩ := h
  simp only at h1 h2 h3 h4
  cases node
  case codeGen =>
    refine ⟨?_, ?_, ?_, ?_⟩ <;> simp [step, codegen_attempts, h1]
    · rw [← h1]; exact h2
  case executor =>
    exact ⟨h1, h2, by intro hx; simp [step] at hx, by intro hx; simp [step] at hx⟩
  case tester =>
    simp only [step]
    rcases route_cases maxAttempts
      (tester (env.pytest pc) (env.parse pc) (env.csv pc) s) with
      ⟨hs, hr⟩ | ⟨hs, ha, hr⟩ | ⟨hs, ha, hr⟩ <;> rw [hr]
    · exact ⟨h1, h2, by intro hx; simp at hx, fun _ => Or.inl hs⟩
    · exact ⟨h1, h2, by intro hx; simp at hx,
        fun _ => Or.inr (by rw [tester_attempts] at ha ⊢; exact ha)⟩
    · refine ⟨h1, h2, fun _ => ⟨hs, ?_⟩, by intro hx; simp at hx⟩
      rw [tester_attempts] at ha ⊢
      exact ha
  case fixer =>
    have hlt := (h3 rfl).2
    refine ⟨?_, ?_, ?_, ?_⟩
    · simp [step, fixer] at hlt ⊢
      omega
    · right
      simp [step, fixer] at hlt ⊢
      omega
    · intro hx; simp [step] at hx
    · intro hx; simp [step] at hx
  case terminal =>
    exact ⟨h1, h2, h3, h4⟩

theorem graphInv_runSteps (env : Env) (maxAttempts a0 : Nat) :
    ∀ (n : Nat) (c : Config), GraphInv maxAttempts a0 c →
      GraphInv maxAttempts a0 (runSteps env maxAttempts n c)
  | 0, _, h => h
  | n + 1, c, h =>
      graphInv_runSteps env maxAttempts a0 n (step env maxAttempts c)
        (graphInv_step env maxAttempts a0 c h)

/-- C2: in every graph run the terminal state is never reached with
`success = false` while `attempts < maxAttempts`; the Fixer node
executes at most `maxAttempts` times per run; and routing from the
Tester goes to `END` exactly when the test succeeded or
`attempts ≥ maxAttempts`, and to the Fixer otherwise. -/
theorem c2_graph_bounds (env : Env) (maxAttempts : Nat) (s : AgentState) (pc lc n : Nat) :
    ((runSteps env maxAttempts n (initConfig s pc lc)).node = GNode.terminal →
      (runSteps env maxAttempts n (initConfig s pc lc)).state.success = false →
      maxAttempts ≤ (runSteps env maxAttempts n (initConfig s pc lc)).state.attempts)
    ∧ (runSteps env maxAttempts n (initConfig s pc lc)).fixerRuns ≤ maxAttempts
    ∧ (∀ c1 : Config, c1.node = GNode.tester →
        ((step env maxAttempts c1).node = GNode.terminal ↔
          ((step env maxAttempts c1).state.success = true
            ∨ maxAttempts ≤ (step env maxAttempts c1).state.attempts))
        ∧ ((step env maxAttempts c1).node = GNode.fixer ↔
          ((step env maxAttempts c1).state.success = false
            ∧ (step env maxAttempts c1).state.attempts < maxAttempts))) := by
  obtain ⟨h1, h2, _h3, h4⟩ :=
    graphInv_runSteps env maxAttempts s.attempts n (initConfig s pc lc)
      (graphInv_init maxAttempts s pc lc)
  refine ⟨?_, ?_, ?_⟩
  · intro ht hs
    rcases h4 ht with hgood | hbound
    · rw [hs] at hgood; cases hgood
    · exact hbound
  · rcases h2 with hz | hle
    · rw [hz]; exact Nat.zero_le _
    · omega
  · intro c1 hc1
    obtain ⟨node, s1, pc1, lc1, fr1⟩ := c1
    simp only at hc1
    subst hc1
    simp only [step]
    rcases route_cases maxAttempts
      (tester (env.pytest pc1) (env.parse pc1) (env.csv pc1) s1) with
      ⟨hs, hr⟩ | ⟨hs, ha, hr⟩ | ⟨hs, ha, hr⟩ <;> rw [hr] <;>
      constructor <;> simp [hs] <;> omega

/-- C2 (witness): with no cache and an always-failing test command the
run from a fresh state reaches the terminal node at step 12 with
`success = false`, and the bound `maxAttempts = 3 ≤ attempts` is
discharged there; the Fixer-run bound and the routing characterization
are discharged at the same concrete run and at a concrete Tester
configuration. -/
theorem c2_graph_bounds_witness :
    3 ≤ (runSteps ceFail 3 12 (initConfig ({} : AgentState) 0 0)).state.attempts
    ∧ (runSteps ceFail 3 12 (initConfig ({} : AgentState) 0 0)).fixerRuns ≤ 3
    ∧ ((step ceFail 3 ⟨GNode.tester, ({} : AgentState), 0, 0, 0⟩).node = GNode.fixer ↔
        ((step ceFail 3 ⟨GNode.tester, ({} : AgentState), 0, 0, 0⟩).state.success = false
          ∧ (step ceFail 3 ⟨GNode.tester, ({} : AgentState), 0, 0, 0⟩).state.attempts < 3)) :=
  ⟨(c2_graph_bounds ceFail 3 ({} : AgentState) 0 0 12).1 (by decide) (by decide),
   (c2_graph_bounds ceFail 3 ({} : AgentState) 0 0 12).2.1,
   ((c2_graph_bounds ceFail 3 ({} : AgentState) 0 0 12).2.2
      ⟨GNode.tester, ({} : AgentState), 0, 0, 0⟩ rfl).2⟩

/-! ## Claim C10: the Tester overwrites `success` -/

/-- The Tester step replaces the configuration's state by the Tester's
output on the pending pytest invocation. -/
theorem step_tester_state (env : Env) (maxAttempts : Nat) (c : Config)
    (h : c.node = GNode.tester) :
    (step env maxAttempts c).state =
      tester (env.pytest c.pytestCalls) (env.parse c.pytestCalls)
        (env.csv c.pytestCalls) c.state := by
  obtain ⟨node, s, pc, lc, fr⟩ := c
  simp only at h
  subst h
  simp only [step]
  rcases route_cases maxAttempts
    (tester (env.pytest pc) (env.parse pc) (env.csv pc) s) with
    ⟨_, hr⟩ | ⟨_, _, hr⟩ | ⟨_, _, hr⟩ <;> rw [hr]

/-- C10: the edges `CodeGen → Executor → Tester` are unconditional, and
after the Tester executes the state's `success` equals the result of the
just-completed test run, whatever its prior value — in particular a
`success = true` produced by a Generate cache hit is overwritten. -/
theorem c10_tester_overwrites_success (env : Env) (maxAttempts : Nat)
    (s : AgentState) (pc lc : Nat) :
    (runSteps env maxAttempts 1 (initConfig s pc lc)).node = GNode.executor
    ∧ (runSteps env maxAttempts 2 (initConfig s pc lc)).node = GNode.tester
    ∧ (runSteps env maxAttempts 3 (initConfig s pc lc)).state.success = (env.pytest pc).1 := by
  refine ⟨rfl, rfl, ?_⟩
  show (step env maxAttempts
    (step env maxAttempts (step env maxAttempts (initConfig s pc lc)))).state.success
      = (env.pytest pc).1
  rw [step_tester_state env maxAttempts
    (step env maxAttempts (step env maxAttempts (initConfig s pc lc))) rfl]
  rfl

/-! ## Claims C1, C3, C8, C9: the Comparator -/

/-- C1: whenever the two frames — `actual` with repeated-header rows
stripped, both truncated to `min(len(expected), len(actual))` rows and
with null cells replaced by the empty string — are cell-wise identical,
`compare_and_summarize` returns exactly the fixed sentinel string, even
when the original row counts differ. -/
theorem c1_identical_after_fill_trunc (expected actual : DataFrame)
    (hcols : expected.cols = (stripHeaders actual).cols)
    (hrows : filledTrunc expected.rows
        (min expected.rows.length (stripHeaders actual).rows.length)
      = filledTrunc (stripHeaders actual).rows
        (min expected.rows.length (stripHeaders actual).rows.length)) :
    compare_and_summarize expected actual
      = Except.ok "All rows and columns match exactly." := by
  simp [compare_and_summarize, hcols, hrows]

/-- C1 (witness): concrete datasets whose original row counts differ
(two expected rows; one data row in `actual` after its repeated header
row is stripped) and agree on the truncated window. -/
theorem c1_identical_after_fill_trunc_witness :
    compare_and_summarize dfE1 dfA1
      = Except.ok "All rows and columns match exactly." :=
  c1_identical_after_fill_trunc dfE1 dfA1 (by decide) (by decide)

/-- C3 (counterexample): the claim "`compare_and_summarize` returns a
string and never raises for every pair of well-formed inputs, including
datasets with disjoint column sets" is false: on single-column frames
with disjoint column labels the element-wise comparison
`expected_filled == actual_filled` raises pandas' identically-labeled
`ValueError` (modelled by `Except.error`). -/
theorem c3_disjoint_columns_raises_cex :
    compare_and_summarize dfE3 dfA3 = Except.error pandasLabelError := rfl

/-- C3 (amended): `compare_and_summarize` returns a string without
raising exactly when the column label sequences of `expected` and
`actual` coincide (header-stripping does not change `actual`'s labels);
whenever they differ the element-wise comparison raises, so no result is
returned. -/
theorem c3_ok_iff_identical_labels (expected actual : DataFrame) :
    (compare_and_summarize expected actual).isOk = true
      ↔ expected.cols = actual.cols := by
  simp only [compare_and_summarize]
  rw [stripHeaders_cols]
  split_ifs with h1 h2 h3
  · exact iff_of_true rfl h1.1
  · exact iff_of_true rfl h2
  · exact iff_of_true rfl h2
  · exact iff_of_false (fun h => Bool.noConfusion h) h2

/-- C3 (witness for the amended claim at a concrete input). -/
theorem c3_ok_iff_identical_labels_witness :
    (compare_and_summarize dfE1 dfE1).isOk = true :=
  (c3_ok_iff_identical_labels dfE1 dfE1).mpr rfl

/-- C8: the row-match count computed by `compare_and_summarize` never
exceeds `min(len(expected), len(actual))` (with `actual` taken after
header stripping), hence lies in `[0, len(expected)]`, and the
denominator printed beside it in the report is exactly `len(expected)`. -/
theorem c8_row_match_count_bounds (expected actual : DataFrame) :
    rowMatchesOf expected actual
      ≤ min expected.rows.length (stripHeaders actual).rows.length
    ∧ rowMatchesOf expected actual ≤ expected.rows.length
    ∧ row_match_part expected actual
      = toString (rowMatchesOf expected actual) ++ "/"
        ++ toString expected.rows.length ++ " rows match exactly!" := by
  have key : rowMatchesOf expected actual
      ≤ min expected.rows.length (stripHeaders actual).rows.length := by
    unfold rowMatchesOf rowMatchCount
    refine Nat.le_trans (List.countP_le_length _) ?_
    rw [List.length_zip]
    unfold filledTrunc
    rw [List.length_map, List.length_map, List.length_take, List.length_take]
    omega
  exact ⟨key, Nat.le_trans key (Nat.min_le_left _ _), rfl⟩

/-- C9: when some column of `expected` is absent from `actual` (whose
labels header-stripping does not change), `compare_and_summarize`
raises the identically-labeled `ValueError` at the row-match comparison,
before reaching the per-column summary; consequently, whenever it does
return a string, every entry of the per-column mismatch summary it can
build is a count — the `MISSING` branch is unreachable. -/
theorem c9_missing_branch_unreachable :
    (∀ (expected actual : DataFrame) (c : String),
      c ∈ expected.cols → c ∉ actual.cols →
      compare_and_summarize expected actual = Except.error pandasLabelError)
    ∧ (∀ (expected actual : DataFrame) (out : String),
      compare_and_summarize expected actual = Except.ok out →
      ∀ p ∈ mismatchSummaryOf expected (stripHeaders actual).cols
          (filledTrunc expected.rows
            (min expected.rows.length (stripHeaders actual).rows.length))
          (filledTrunc (stripHeaders actual).rows
            (min expected.rows.length (stripHeaders actual).rows.length)),
        p.2 ≠ MismatchVal.missing) := by
  have hcolsOk : ∀ (expected actual : DataFrame) (out : String),
      compare_and_summarize expected actual = Except.ok out →
      expected.cols = actual.cols := by
    intro e a out h
    by_cases hc : e.cols = a.cols
    · exact hc
    · exfalso
      have hcs : ¬ (e.cols = (stripHeaders a).cols) := hc
      simp [compare_and_summarize, hcs] at h
  constructor
  · intro e a c hce hca
    have hne : ¬ (e.cols = (stripHeaders a).cols) := by
      intro he
      rw [stripHeaders_cols] at he
      rw [he] at hce
      exact hca hce
    simp [compare_and_summarize, hne]
  · intro e a out h p hp
    have hc := hcolsOk e a out h
    unfold mismatchSummaryOf at hp
    rw [List.mem_map] at hp
    obtain ⟨c, hcmem, hpc⟩ := hp
    have hmem : c ∈ (stripHeaders a).cols := by
      rw [stripHeaders_cols, ← hc]
      exact hcmem
    rw [← hpc]
    simp [hmem]

/-- C9 (witness): the raise is exhibited on concrete disjoint-column
frames, and a concrete returned report's summary entry is a count. -/
theorem c9_missing_branch_unreachable_witness :
    compare_and_summarize dfE9 dfA9 = Except.error pandasLabelError
    ∧ (("a", MismatchVal.count 0) : String × MismatchVal).2 ≠ MismatchVal.missing :=
  ⟨c9_missing_branch_unreachable.1 dfE9 dfA9 "x" (by decide) (by decide),
   c9_missing_branch_unreachable.2 dfE1 dfA1 "All rows and columns match exactly."
     rfl ("a", MismatchVal.count 0) (by decide)⟩

end Agent
